import Mathlib

/-!
# awtk server: the genotype query handler

A shallow embedding of `getGenotypes` (server.go) and of the library calls it
makes, followed by the properties of its coordinate parsing and dispatch.

* Go strings are lists of characters. Every separator the handler splits on
  (`,`, `:`, `-`) and every character `strconv.Atoi` inspects is ASCII, and
  splitting UTF-8 text on an ASCII byte is splitting it on that character.
* Go's `int` is an `Int` kept inside `[-2^(intSize-1), 2^(intSize-1))`;
  `intSize` is `strconv.IntSize` (32 or 64) and is a parameter of the model.
  Subtraction wraps around as on the machine.
* The Genome Store (package `lib`) is a record of functions. The handler
  returns its HTTP response together with the list of store calls it made, in
  the order it made them.
-/

namespace Awtk

/-- A Go string. -/
abbrev GoString := List Char

deriving instance DecidableEq for Except

/-! ## Standard library: `strings.Split`, `strconv.Atoi` -/

/-- Model of `strings.Split(s, sep)` for a one-character separator: the pieces of
`s` between consecutive occurrences of `sep`. A string without `sep` (the empty
string included) yields one piece. -/
def Split : GoString → Char → List GoString
  | [], _ => [[]]
  | ch :: rest, sep =>
    if ch = sep then [] :: Split rest sep
    else
      match Split rest sep with
      | [] => [[ch]]
      | piece :: pieces => (ch :: piece) :: pieces

/-- The `Err` field of `strconv.NumError`: `strconv.ErrSyntax` or `strconv.ErrRange`. -/
inductive NumErrKind where
  | ErrSyntax
  | ErrRange
  deriving DecidableEq, Repr

/-- Modelled from the spec: the error values of a request. `GenomeError` is the type
`awtk.GenomeError` of package `lib`, which is not part of the sources at hand;
server.go builds it from one message string, and the spec calls it
ValidationError. `NumError` is `*strconv.NumError` (the text that failed to parse
and why). `Other` is any other error the store returns. -/
inductive GoError where
  | GenomeError (Message : GoString)
  | NumError (Num : GoString) (Err : NumErrKind)
  | Other (text : GoString)
  deriving DecidableEq, Repr

/-- The digit loop of `strconv.ParseUint(s, 10, bitSize)`: every byte must be a
decimal digit (`ErrSyntax` otherwise), and the value accumulated so far must not
exceed `maxVal = 2^bitSize - 1` (`ErrRange` otherwise). The loop stops at the
first byte that fails either test. -/
def parseUintLoop (maxVal : Nat) : GoString → Nat → Except NumErrKind Nat
  | [], n => .ok n
  | ch :: rest, n =>
    if ch.isDigit then
      let n1 := n * 10 + (ch.toNat - 48)
      if maxVal < n1 then .error .ErrRange else parseUintLoop maxVal rest n1
    else .error .ErrSyntax

/-- Model of `strconv.ParseUint(s, 10, bitSize)`: the empty string is a syntax
error. -/
def ParseUint (bitSize : Nat) (s : GoString) : Except NumErrKind Nat :=
  if s = [] then .error .ErrSyntax else parseUintLoop (2 ^ bitSize - 1) s 0

/-- Model of `strconv.Atoi(s)`, which is `strconv.ParseInt(s, 10, 0)` converted to
`int`: an optional sign `+` or `-`, then one or more decimal digits, the value
lying in `[-2^(intSize-1), 2^(intSize-1))`. Errors are `*strconv.NumError`
carrying the input text. -/
def Atoi (intSize : Nat) (s0 : GoString) : Except GoError Int :=
  match s0 with
  | [] => .error (.NumError s0 .ErrSyntax)
  | ch :: rest =>
    let neg : Bool := decide (ch = '-')
    let s : GoString := if ch = '+' ∨ ch = '-' then rest else s0
    match ParseUint intSize s with
    | .error kind => .error (.NumError s0 kind)
    | .ok un =>
      let cutoff := 2 ^ (intSize - 1)
      if neg = false ∧ cutoff ≤ un then .error (.NumError s0 .ErrRange)
      else if neg = true ∧ cutoff < un then .error (.NumError s0 .ErrRange)
      else .ok (if neg then -(un : Int) else (un : Int))

/-- Reduction of an integer to Go's `int` range (two's complement wrap-around). -/
def wrapInt (intSize : Nat) (x : Int) : Int :=
  (x + 2 ^ (intSize - 1)) % 2 ^ intSize - 2 ^ (intSize - 1)

/-- Go's `a - b` on `int`. -/
def subInt (intSize : Nat) (a b : Int) : Int := wrapInt intSize (a - b)

/-! ## Package `lib`: the data the handler exchanges with the Genome Store -/

/-- Modelled from the spec: the type `awtk.Location` of package `lib`, which is not
part of the sources at hand. Section 3 gives it as
(chromosome: string, start: integer, end: integer). -/
structure Location where
  Chrom : GoString
  Start : Int
  End : Int
  deriving DecidableEq, Repr

/-- Modelled from the spec: the constructor `awtk.NewLocation` of package `lib`,
which is not part of the sources at hand. It builds the Location of section 3
from its three components. -/
def NewLocation (chrom : GoString) (start stop : Int) : Location :=
  { Chrom := chrom, Start := start, End := stop }

/-- Modelled from the spec: the type `awtk.Genome` of package `lib`, which is not
part of the sources at hand (identifier, file path, sample index). The handler
reads `FilePath` and `SampleIndex`. -/
structure Genome where
  Id : Int
  FilePath : GoString
  SampleIndex : Int
  deriving DecidableEq, Repr

/-- The Genome Store operations `getGenotypes` calls. `Gt` is the type of a
genotype list, `Sq` the type of a reconstructed sequence; both are opaque to the
handler. -/
structure Store (Gt Sq : Type) where
  GetGenome : Int → Except GoError Genome
  QueryGenotypes : GoString → Int → List Location → Except GoError Gt
  Genotypes2Sequence : Gt → List Location → Except GoError Sq

/-- One call made to the Genome Store, with its arguments. -/
inductive StoreCall (Gt : Type) where
  | GetGenome (id : Int)
  | QueryGenotypes (filePath : GoString) (sampleIndex : Int) (locs : List Location)
  | Genotypes2Sequence (genotypes : Gt) (locs : List Location)
  deriving DecidableEq, Repr

/-! ## The HTTP side -/

/-- What `getGenotypes` reads from its `echo.Context`: the path parameter
`genome_id` and the query parameters `locations`, `range` and `fmt`. An absent
query parameter reads as the empty string. -/
structure Context where
  genome_id : GoString
  locations : GoString
  range : GoString
  fmt : GoString
  deriving DecidableEq, Repr

/-- The value handed to `c.JSON`. -/
inductive Body (Gt Sq : Type) where
  | error (err : GoError)
  | genotypes (g : Gt)
  | sequence (s : Sq)
  deriving DecidableEq, Repr

/-- An HTTP response: status code and JSON payload. -/
structure Response (Gt Sq : Type) where
  status : Nat
  body : Body Gt Sq
  deriving DecidableEq, Repr

/-- The constant `http.StatusBadRequest`. -/
def StatusBadRequest : Nat := 400

/-- The constant `http.StatusOK`. -/
def StatusOK : Nat := 200

/-- The call `c.JSON(code, value)`. -/
def JSON {Gt Sq : Type} (code : Nat) (value : Body Gt Sq) : Response Gt Sq :=
  { status := code, body := value }

/-- The loop of `getGenotypes` over the comma-separated entries (server.go lines
112-125): each entry is split on `:`; an entry without exactly two fields ends
the loop with `Invalid locations`, a position `Atoi` rejects ends it with that
error, and otherwise `NewLocation(q[0], pos-1, pos)` is appended to `locs`. -/
def locationsLoop (intSize : Nat) : List GoString → List Location → Except GoError (List Location)
  | [], locs => .ok locs
  | query :: queries, locs =>
    match Split query ':' with
    | [q0, q1] =>
      match Atoi intSize q1 with
      | .error err => .error err
      | .ok pos => locationsLoop intSize queries (locs ++ [NewLocation q0 (subInt intSize pos 1) pos])
    | _ => .error (.GenomeError "Invalid locations".toList)

/-- The branch of `getGenotypes` for a non-empty `locations` parameter (server.go
lines 109-125). -/
def parseLocations (intSize : Nat) (locationsParam : GoString) : Except GoError (List Location) :=
  locationsLoop intSize (Split locationsParam ',') []

/-- The branch of `getGenotypes` for a non-empty `range` parameter (server.go
lines 126-151). -/
def parseRange (intSize : Nat) (rangeParam : GoString) : Except GoError (List Location) :=
  match Split rangeParam ':' with
  | [q0, q1] =>
    match Split q1 '-' with
    | [r0, r1] =>
      match Atoi intSize r0 with
      | .error err => .error err
      | .ok start =>
        match Atoi intSize r1 with
        | .error err => .error err
        | .ok stop => .ok [NewLocation q0 (subInt intSize start 1) stop]
    | _ => .error (.GenomeError "Invalid locations".toList)
  | _ => .error (.GenomeError "Invalid locations".toList)

/-- The handler `getGenotypes` (server.go lines 83-169). The result is the list of
store calls made, in order, and the response written. -/
def getGenotypes {Gt Sq : Type} (intSize : Nat) (db : Store Gt Sq) (c : Context) :
    List (StoreCall Gt) × Response Gt Sq :=
  match Atoi intSize c.genome_id with
  | .error err => ([], JSON StatusBadRequest (.error err))
  | .ok id =>
    match db.GetGenome id with
    | .error err => ([.GetGenome id], JSON StatusBadRequest (.error err))
    | .ok genome =>
      let locationsParam := c.locations
      let rangeParam := c.range
      if locationsParam ≠ [] ∧ rangeParam ≠ [] then
        ([.GetGenome id], JSON StatusBadRequest (.error (.GenomeError
          "Invalid query param. Both locations and range params found.".toList)))
      else if locationsParam = [] ∧ rangeParam = [] then
        ([.GetGenome id], JSON StatusBadRequest (.error (.GenomeError
          "No valid query params found.".toList)))
      else
        let parsed :=
          if locationsParam ≠ [] then parseLocations intSize locationsParam
          else if rangeParam ≠ [] then parseRange intSize rangeParam
          else .ok []
        match parsed with
        | .error err => ([.GetGenome id], JSON StatusBadRequest (.error err))
        | .ok locs =>
          match db.QueryGenotypes genome.FilePath genome.SampleIndex locs with
          | .error err =>
            ([.GetGenome id, .QueryGenotypes genome.FilePath genome.SampleIndex locs],
              JSON StatusBadRequest (.error err))
          | .ok genotypes =>
            let fmtParam := c.fmt
            if rangeParam ≠ [] ∧ fmtParam = "seq".toList then
              match db.Genotypes2Sequence genotypes locs with
              | .error err =>
                ([.GetGenome id, .QueryGenotypes genome.FilePath genome.SampleIndex locs,
                  .Genotypes2Sequence genotypes locs], JSON StatusBadRequest (.error err))
              | .ok seq =>
                ([.GetGenome id, .QueryGenotypes genome.FilePath genome.SampleIndex locs,
                  .Genotypes2Sequence genotypes locs], JSON StatusOK (.sequence seq))
            else
              ([.GetGenome id, .QueryGenotypes genome.FilePath genome.SampleIndex locs],
                JSON StatusOK (.genotypes genotypes))

/-! ## The steps of the handler, named -/

/-- What one iteration of the loop does with an entry it accepts. -/
def entryParses (intSize : Nat) (query : GoString) (loc : Location) : Prop :=
  ∃ q0 q1 pos, Split query ':' = [q0, q1] ∧ Atoi intSize q1 = .ok pos ∧
    loc = NewLocation q0 (subInt intSize pos 1) pos

/-- The coordinate parsing step for a request that carries exactly one of the two
parameters: the `locations` branch when `locations` is non-empty, the `range`
branch otherwise. -/
def parseCoordinates (intSize : Nat) (c : Context) : Except GoError (List Location) :=
  if c.locations ≠ [] then parseLocations intSize c.locations else parseRange intSize c.range

/-- The parameters pass validation: exactly one of `locations` and `range` is
non-empty. -/
def oneParam (c : Context) : Prop :=
  (c.locations ≠ [] ∧ c.range = []) ∨ (c.locations = [] ∧ c.range ≠ [])

/-! ## Reading the trace of store calls -/

/-- The Location sequences handed to `QueryGenotypes`, one per call, in call order. -/
def dispatched {Gt : Type} : List (StoreCall Gt) → List (List Location)
  | [] => []
  | .QueryGenotypes _ _ locs :: calls => locs :: dispatched calls
  | _ :: calls => dispatched calls

/-- The calls to `Genotypes2Sequence` in a trace, with their arguments. -/
def reconstructions {Gt : Type} : List (StoreCall Gt) → List (Gt × List Location)
  | [] => []
  | .Genotypes2Sequence g locs :: calls => (g, locs) :: reconstructions calls
  | _ :: calls => reconstructions calls

/-! ## Writing requests: decimal numerals and parameter text -/

/-- The decimal numeral of a natural number, without sign or leading zeros. -/
def decimal (n : Nat) : GoString := Nat.toDigits 10 n

/-- The entries joined by a separator character. -/
def joinWith (sep : Char) : List GoString → GoString
  | [] => []
  | [entry] => entry
  | entry :: entries => entry ++ sep :: joinWith sep entries

/-- The text `c:p` of one entry of the `locations` parameter. -/
def locationEntry (x : GoString × Nat) : GoString := x.1 ++ ':' :: decimal x.2

/-- The text `c_1:p_1,...,c_n:p_n` of a `locations` parameter. -/
def locationsText (pairs : List (GoString × Nat)) : GoString :=
  joinWith ',' (pairs.map locationEntry)

/-- The text `c:s-e` of a `range` parameter. -/
def rangeText (chrom : GoString) (s e : Nat) : GoString :=
  chrom ++ ':' :: (decimal s ++ '-' :: decimal e)

/-- A store for concrete evaluation: genome `id` lives in file `g.vcf` with sample
index `0`; the genotype list of a query is the queried Location sequence itself;
the reconstructed sequence is the number of genotypes. -/
def demoStore : Store (List Location) Nat where
  GetGenome := fun id => .ok { Id := id, FilePath := "g.vcf".toList, SampleIndex := 0 }
  QueryGenotypes := fun _ _ locs => .ok locs
  Genotypes2Sequence := fun g _ => .ok g.length

/-! ## Lemmas on `Split` -/

theorem Split_ne_nil (s : GoString) (sep : Char) : Split s sep ≠ [] := by
  induction s with
  | nil => simp [Split]
  | cons ch rest ih =>
    unfold Split
    split
    · simp
    · split <;> simp

theorem Split_of_not_mem (s : GoString) (sep : Char) (h : sep ∉ s) : Split s sep = [s] := by
  induction s with
  | nil => simp [Split]
  | cons ch rest ih =>
    have h1 : ch ≠ sep := fun e => h (by simp [e])
    have h2 : sep ∉ rest := fun m => h (by simp [m])
    simp [Split, h1, ih h2]

theorem Split_append_sep (a b : GoString) (sep : Char) (h : sep ∉ a) :
    Split (a ++ sep :: b) sep = a :: Split b sep := by
  induction a with
  | nil => simp [Split]
  | cons ch rest ih =>
    have h1 : ch ≠ sep := fun e => h (by simp [e])
    have h2 : sep ∉ rest := fun m => h (by simp [m])
    simp [Split, h1, ih h2]

theorem Split_length (s : GoString) (sep : Char) : (Split s sep).length = s.count sep + 1 := by
  induction s with
  | nil => simp [Split]
  | cons ch rest ih =>
    unfold Split
    by_cases h : ch = sep
    · subst h
      simp [ih]
    · have hc : (ch == sep) = false := by simpa using h
      rw [if_neg h, List.count_cons, hc]
      cases hs : Split rest sep with
      | nil => exact absurd hs (Split_ne_nil rest sep)
      | cons piece pieces =>
        rw [hs] at ih
        simpa using ih

theorem Split_not_mem (s : GoString) (sep : Char) : ∀ piece ∈ Split s sep, sep ∉ piece := by
  induction s with
  | nil => simp [Split]
  | cons ch rest ih =>
    unfold Split
    by_cases h : ch = sep
    · rw [if_pos h]
      intro piece hp
      rcases List.mem_cons.1 hp with rfl | hp
      · simp
      · exact ih piece hp
    · rw [if_neg h]
      cases hs : Split rest sep with
      | nil => exact absurd hs (Split_ne_nil rest sep)
      | cons piece pieces =>
        rw [hs] at ih
        intro x hx
        rcases List.mem_cons.1 hx with rfl | hx
        · intro hm
          rcases List.mem_cons.1 hm with e | hm
          · exact h e.symm
          · exact ih piece (by simp) hm
        · exact ih x (by simp [hx])

theorem Split_joinWith (sep : Char) (es : List GoString) (hne : es ≠ [])
    (h : ∀ e ∈ es, sep ∉ e) : Split (joinWith sep es) sep = es := by
  induction es with
  | nil => exact absurd rfl hne
  | cons e rest ih =>
    cases rest with
    | nil => simpa [joinWith] using Split_of_not_mem e sep (h e (by simp))
    | cons e2 rest2 =>
      have hrest : ∀ x ∈ e2 :: rest2, sep ∉ x := fun x hx => h x (by simp [hx])
      rw [joinWith, Split_append_sep _ _ _ (h e (by simp)), ih (by simp) hrest]
      simp

/-! ## Lemmas on `Atoi` -/

theorem digitChar_isDigit (d : Nat) (h : d < 10) :
    (Nat.digitChar d).isDigit = true ∧ (Nat.digitChar d).toNat - 48 = d := by
  interval_cases d <;> decide

theorem isDigit_ne_sep (ch : Char) (h : ch.isDigit = true) :
    ch ≠ ',' ∧ ch ≠ ':' ∧ ch ≠ '-' ∧ ch ≠ '+' := by
  refine ⟨?_, ?_, ?_, ?_⟩ <;> rintro rfl <;> exact absurd h (by decide)

theorem toDigitsCore_mem (fuel : Nat) : ∀ (n : Nat) (ds : GoString) (ch : Char),
    ch ∈ Nat.toDigitsCore 10 fuel n ds → ch ∈ ds ∨ ch.isDigit = true := by
  induction fuel with
  | zero => intro n ds ch h; left; simpa [Nat.toDigitsCore] using h
  | succ fuel ih =>
    intro n ds ch h
    have hd := (digitChar_isDigit (n % 10) (Nat.mod_lt _ (by decide))).1
    unfold Nat.toDigitsCore at h
    simp only at h
    split at h
    · rcases List.mem_cons.1 h with rfl | h
      · exact Or.inr hd
      · exact Or.inl h
    · rcases ih _ _ _ h with h | h
      · rcases List.mem_cons.1 h with rfl | h
        · exact Or.inr hd
        · exact Or.inl h
      · exact Or.inr h

theorem toDigitsCore_ne_nil (fuel : Nat) : ∀ (n : Nat) (ds : GoString),
    Nat.toDigitsCore 10 (fuel + 1) n ds ≠ [] := by
  induction fuel with
  | zero =>
    intro n ds
    unfold Nat.toDigitsCore
    simp only
    split
    · simp
    · simp [Nat.toDigitsCore]
  | succ fuel ih =>
    intro n ds
    unfold Nat.toDigitsCore
    simp only
    split
    · simp
    · exact ih _ _

theorem parseUintLoop_toDigitsCore (maxVal fuel : Nat) : ∀ (n : Nat) (ds : GoString),
    n < fuel → n ≤ maxVal →
    parseUintLoop maxVal (Nat.toDigitsCore 10 fuel n ds) 0 = parseUintLoop maxVal ds n := by
  induction fuel with
  | zero => intro n ds h; omega
  | succ fuel ih =>
    intro n ds hf hm
    obtain ⟨hd, hv⟩ := digitChar_isDigit (n % 10) (Nat.mod_lt _ (by decide))
    unfold Nat.toDigitsCore
    simp only
    split
    · rename_i h0
      have hn : n % 10 = n := by omega
      simp only [parseUintLoop, hd, hv, if_true]
      rw [if_neg (by omega)]
      congr 1
      omega
    · rename_i h0
      rw [ih (n / 10) _ (by omega) (by omega)]
      simp only [parseUintLoop, hd, hv, if_true]
      rw [if_neg (by omega)]
      congr 1
      omega

theorem decimal_ne_nil (n : Nat) : decimal n ≠ [] := toDigitsCore_ne_nil n n []

theorem decimal_isDigit (n : Nat) : ∀ ch ∈ decimal n, ch.isDigit = true := by
  intro ch h
  rcases toDigitsCore_mem _ _ _ _ h with h | h
  · simp at h
  · exact h

theorem ParseUint_decimal (bitSize n : Nat) (h : n ≤ 2 ^ bitSize - 1) :
    ParseUint bitSize (decimal n) = .ok n := by
  unfold ParseUint
  rw [if_neg (decimal_ne_nil n)]
  unfold decimal Nat.toDigits
  rw [parseUintLoop_toDigitsCore _ _ _ _ (by omega) h]
  rfl

theorem Atoi_decimal (intSize n : Nat) (hw : 0 < intSize) (h : n < 2 ^ (intSize - 1)) :
    Atoi intSize (decimal n) = .ok (n : Int) := by
  have hpow : 2 ^ intSize = 2 * 2 ^ (intSize - 1) := by
    obtain ⟨k, rfl⟩ : ∃ k, intSize = k + 1 := ⟨intSize - 1, by omega⟩
    simp [pow_succ, mul_comm]
  cases hs : decimal n with
  | nil => exact absurd hs (decimal_ne_nil n)
  | cons ch rest =>
    have hd : ch.isDigit = true := decimal_isDigit n ch (by simp [hs])
    obtain ⟨-, -, hm, hp⟩ := isDigit_ne_sep ch hd
    have hpu := ParseUint_decimal intSize n (by omega)
    rw [hs] at hpu
    simp [Atoi, hm, hp, hpu]
    omega

theorem parseUintLoop_le (maxVal : Nat) : ∀ (s : GoString) (n v : Nat),
    parseUintLoop maxVal s n = .ok v → n ≤ maxVal → v ≤ maxVal := by
  intro s
  induction s with
  | nil =>
    intro n v h hn
    simp only [parseUintLoop, Except.ok.injEq] at h
    omega
  | cons ch rest ih =>
    intro n v h hn
    unfold parseUintLoop at h
    split at h
    · simp only at h
      split at h
      · cases h
      · exact ih _ _ h (by omega)
    · cases h

theorem pow_intSize (intSize : Nat) (hw : 0 < intSize) :
    2 ^ intSize = 2 * 2 ^ (intSize - 1) := by
  obtain ⟨k, rfl⟩ : ∃ k, intSize = k + 1 := ⟨intSize - 1, by omega⟩
  simp [pow_succ, mul_comm]

theorem Atoi_bounds (intSize : Nat) (s : GoString) (v : Int) (h : Atoi intSize s = .ok v) :
    -(2 ^ (intSize - 1) : Int) ≤ v ∧ v < 2 ^ (intSize - 1) ∧ ('-' ∉ s → 0 ≤ v) := by
  have hp : (0 : Int) < 2 ^ (intSize - 1) := by positivity
  cases s with
  | nil => simp [Atoi] at h
  | cons ch rest =>
    simp only [Atoi] at h
    split at h
    · cases h
    · rename_i un hun
      split at h
      · cases h
      · rename_i h1
        split at h
        · cases h
        · rename_i h2
          simp only [Except.ok.injEq] at h
          by_cases hneg : ch = '-'
          · simp only [hneg, decide_True, if_true] at h h2
            have h3 : un ≤ 2 ^ (intSize - 1) := by
              by_contra hc
              exact h2 ⟨trivial, by omega⟩
            have h4 : ((un : Nat) : Int) ≤ 2 ^ (intSize - 1) := by exact_mod_cast h3
            subst h
            refine ⟨by omega, by omega, ?_⟩
            intro hm
            exact absurd (by simp [hneg]) hm
          · simp only [hneg, decide_False, Bool.false_eq_true, if_false] at h h1
            have h3 : un < 2 ^ (intSize - 1) := by
              by_contra hc
              exact h1 ⟨trivial, by omega⟩
            have h4 : ((un : Nat) : Int) < 2 ^ (intSize - 1) := by exact_mod_cast h3
            subst h
            exact ⟨by omega, h4, fun _ => by omega⟩

theorem wrapInt_of_bounds (intSize : Nat) (hw : 0 < intSize) (x : Int)
    (h1 : -(2 ^ (intSize - 1) : Int) ≤ x) (h2 : x < 2 ^ (intSize - 1)) :
    wrapInt intSize x = x := by
  have hpow : (2 : Int) ^ intSize = 2 * 2 ^ (intSize - 1) := by
    have := pow_intSize intSize hw
    exact_mod_cast this
  unfold wrapInt
  rw [Int.emod_eq_of_lt (by omega) (by omega)]
  omega

/-! ## Lemmas on the `locations` loop -/

theorem locationsLoop_ok (intSize : Nat) : ∀ (queries : List GoString) (locs out : List Location),
    locationsLoop intSize queries locs = .ok out →
    ∃ news, out = locs ++ news ∧ List.Forall₂ (entryParses intSize) queries news := by
  intro queries
  induction queries with
  | nil =>
    intro locs out h
    simp only [locationsLoop, Except.ok.injEq] at h
    exact ⟨[], by simp [h], List.Forall₂.nil⟩
  | cons query queries ih =>
    intro locs out h
    unfold locationsLoop at h
    split at h
    · rename_i q0 q1 hq
      split at h
      · cases h
      · rename_i pos hpos
        obtain ⟨news, hout, hall⟩ := ih _ _ h
        refine ⟨NewLocation q0 (subInt intSize pos 1) pos :: news, by simp [hout], ?_⟩
        exact List.Forall₂.cons ⟨q0, q1, pos, hq, hpos, rfl⟩ hall
    · cases h

theorem locationsLoop_first_failure (intSize : Nat) : ∀ (pre : List GoString)
    (entry : GoString) (post : List GoString) (locs : List Location),
    (∀ e ∈ pre, ∃ q0 q1 pos, Split e ':' = [q0, q1] ∧ Atoi intSize q1 = .ok pos) →
    ((Split entry ':').length ≠ 2 →
      locationsLoop intSize (pre ++ entry :: post) locs
        = .error (.GenomeError "Invalid locations".toList)) ∧
    (∀ q0 q1 err, Split entry ':' = [q0, q1] → Atoi intSize q1 = .error err →
      locationsLoop intSize (pre ++ entry :: post) locs = .error err) := by
  intro pre
  induction pre with
  | nil =>
    intro entry post locs _
    constructor
    · intro hbad
      simp only [List.nil_append, locationsLoop]
      split
      · rename_i q0 q1 hq
        simp [hq] at hbad
      · rfl
    · intro q0 q1 err hq ha
      simp only [List.nil_append, locationsLoop, hq, ha]
  | cons e pre ih =>
    intro entry post locs hpre
    obtain ⟨q0, q1, pos, hq, hpos⟩ := hpre e (by simp)
    simp only [List.cons_append, locationsLoop, hq, hpos]
    exact ih entry post _ (fun x hx => hpre x (by simp [hx]))

theorem locationsLoop_entries (intSize : Nat) (hw : 0 < intSize) :
    ∀ (pairs : List (GoString × Nat)) (locs : List Location),
    (∀ x ∈ pairs, ':' ∉ x.1 ∧ 1 ≤ x.2 ∧ x.2 < 2 ^ (intSize - 1)) →
    locationsLoop intSize (pairs.map locationEntry) locs
      = .ok (locs ++ pairs.map fun x => NewLocation x.1 ((x.2 : Int) - 1) (x.2 : Int)) := by
  intro pairs
  induction pairs with
  | nil => intro locs _; simp [locationsLoop]
  | cons x pairs ih =>
    intro locs h
    obtain ⟨hc, h1, h2⟩ := h x (by simp)
    have hsplit : Split (locationEntry x) ':' = [x.1, decimal x.2] := by
      unfold locationEntry
      rw [Split_append_sep _ _ _ hc, Split_of_not_mem]
      intro hm
      exact (isDigit_ne_sep _ (decimal_isDigit _ _ hm)).2.1 rfl
    have h3 : ((x.2 : Nat) : Int) < 2 ^ (intSize - 1) := by exact_mod_cast h2
    have hpos : (0 : Int) < 2 ^ (intSize - 1) := by positivity
    have hsub : subInt intSize (x.2 : Int) 1 = (x.2 : Int) - 1 :=
      wrapInt_of_bounds intSize hw _ (by omega) (by omega)
    simp only [List.map_cons, locationsLoop, hsplit, Atoi_decimal intSize x.2 hw h2, hsub]
    rw [ih _ (fun y hy => h y (by simp [hy]))]
    simp

/-! ## The handler, step by step -/

theorem getGenotypes_parse_error {Gt Sq : Type} (intSize : Nat) (db : Store Gt Sq) (c : Context)
    (id : Int) (genome : Genome) (err : GoError)
    (hid : Atoi intSize c.genome_id = .ok id) (hg : db.GetGenome id = .ok genome)
    (hone : oneParam c) (hp : parseCoordinates intSize c = .error err) :
    getGenotypes intSize db c = ([.GetGenome id], ⟨400, .error err⟩) := by
  unfold parseCoordinates at hp
  rcases hone with ⟨hl, hr⟩ | ⟨hl, hr⟩
  · rw [if_pos hl] at hp
    simp [getGenotypes, hid, hg, hl, hr, hp, JSON, StatusBadRequest]
  · rw [if_neg (by simp [hl])] at hp
    simp [getGenotypes, hid, hg, hl, hr, hp, JSON, StatusBadRequest]

theorem getGenotypes_parse_ok {Gt Sq : Type} (intSize : Nat) (db : Store Gt Sq) (c : Context)
    (id : Int) (genome : Genome) (locs : List Location)
    (hid : Atoi intSize c.genome_id = .ok id) (hg : db.GetGenome id = .ok genome)
    (hone : oneParam c) (hp : parseCoordinates intSize c = .ok locs) :
    getGenotypes intSize db c =
      match db.QueryGenotypes genome.FilePath genome.SampleIndex locs with
      | .error err =>
        ([.GetGenome id, .QueryGenotypes genome.FilePath genome.SampleIndex locs],
          ⟨400, .error err⟩)
      | .ok genotypes =>
        if c.range ≠ [] ∧ c.fmt = "seq".toList then
          match db.Genotypes2Sequence genotypes locs with
          | .error err =>
            ([.GetGenome id, .QueryGenotypes genome.FilePath genome.SampleIndex locs,
              .Genotypes2Sequence genotypes locs], ⟨400, .error err⟩)
          | .ok seq =>
            ([.GetGenome id, .QueryGenotypes genome.FilePath genome.SampleIndex locs,
              .Genotypes2Sequence genotypes locs], ⟨200, .sequence seq⟩)
        else
          ([.GetGenome id, .QueryGenotypes genome.FilePath genome.SampleIndex locs],
            ⟨200, .genotypes genotypes⟩) := by
  unfold parseCoordinates at hp
  rcases hone with ⟨hl, hr⟩ | ⟨hl, hr⟩
  · rw [if_pos hl] at hp
    simp [getGenotypes, hid, hg, hl, hr, hp, JSON, StatusBadRequest, StatusOK]
  · rw [if_neg (by simp [hl])] at hp
    simp [getGenotypes, hid, hg, hl, hr, hp, JSON, StatusBadRequest, StatusOK]

theorem getGenotypes_dispatched {Gt Sq : Type} (intSize : Nat) (db : Store Gt Sq) (c : Context)
    (id : Int) (genome : Genome) (locs : List Location)
    (hid : Atoi intSize c.genome_id = .ok id) (hg : db.GetGenome id = .ok genome)
    (hone : oneParam c) (hp : parseCoordinates intSize c = .ok locs) :
    dispatched (getGenotypes intSize db c).1 = [locs] := by
  rw [getGenotypes_parse_ok intSize db c id genome locs hid hg hone hp]
  have key : ∀ t : List (StoreCall Gt) × Response Gt Sq,
      (t.1 = [.GetGenome id, .QueryGenotypes genome.FilePath genome.SampleIndex locs] ∨
        ∃ g, t.1 = [.GetGenome id, .QueryGenotypes genome.FilePath genome.SampleIndex locs,
          .Genotypes2Sequence g locs]) → dispatched t.1 = [locs] := by
    rintro t (ht | ⟨g, ht⟩) <;> rw [ht] <;> rfl
  apply key
  split
  · exact Or.inl rfl
  · split
    · split
      · exact Or.inr ⟨_, rfl⟩
      · exact Or.inr ⟨_, rfl⟩
    · exact Or.inl rfl

/-- Whenever `QueryGenotypes` appears in the trace, the genome was resolved, the
parameters passed validation, and the Location sequence is the parser's output. -/
theorem dispatched_inv {Gt Sq : Type} (intSize : Nat) (db : Store Gt Sq) (c : Context)
    (locs : List Location) (h : locs ∈ dispatched (getGenotypes intSize db c).1) :
    ∃ id genome, Atoi intSize c.genome_id = .ok id ∧ db.GetGenome id = .ok genome ∧
      oneParam c ∧ parseCoordinates intSize c = .ok locs ∧
      dispatched (getGenotypes intSize db c).1 = [locs] := by
  cases hid : Atoi intSize c.genome_id with
  | error err => simp [getGenotypes, hid, dispatched] at h
  | ok id =>
    cases hg : db.GetGenome id with
    | error err => simp [getGenotypes, hid, hg, dispatched] at h
    | ok genome =>
      by_cases hone : oneParam c
      · cases hp : parseCoordinates intSize c with
        | error err =>
          rw [getGenotypes_parse_error intSize db c id genome err hid hg hone hp] at h
          simp [dispatched] at h
        | ok out =>
          have hd := getGenotypes_dispatched intSize db c id genome out hid hg hone hp
          rw [hd] at h ⊢
          simp only [List.mem_singleton] at h
          subst h
          exact ⟨id, genome, rfl, hg, hone, rfl, rfl⟩
      · have hcase : (c.locations ≠ [] ∧ c.range ≠ []) ∨ (c.locations = [] ∧ c.range = []) := by
          unfold oneParam at hone
          by_cases hl : c.locations = [] <;> by_cases hr : c.range = [] <;> simp_all
        rcases hcase with ⟨hl, hr⟩ | ⟨hl, hr⟩
        · simp [getGenotypes, hid, hg, hl, hr, dispatched] at h
        · simp [getGenotypes, hid, hg, hl, hr, dispatched] at h

theorem locationsText_ne_nil (pairs : List (GoString × Nat)) (hne : pairs ≠ []) :
    locationsText pairs ≠ [] := by
  cases pairs with
  | nil => exact absurd rfl hne
  | cons x rest =>
    cases rest with
    | nil => simp [locationsText, joinWith, locationEntry]
    | cons y rest => simp [locationsText, joinWith, locationEntry]

theorem parseLocations_text (intSize : Nat) (hw : 0 < intSize) (pairs : List (GoString × Nat))
    (hne : pairs ≠ [])
    (hchrom : ∀ x ∈ pairs, ',' ∉ x.1 ∧ ':' ∉ x.1)
    (hpos : ∀ x ∈ pairs, 1 ≤ x.2 ∧ x.2 < 2 ^ (intSize - 1)) :
    parseLocations intSize (locationsText pairs)
      = .ok (pairs.map fun x => NewLocation x.1 ((x.2 : Int) - 1) (x.2 : Int)) := by
  unfold parseLocations locationsText
  rw [Split_joinWith ',' _ (by simpa using hne)]
  · rw [locationsLoop_entries intSize hw pairs [] (fun x hx => ⟨(hchrom x hx).2, hpos x hx⟩)]
    simp
  · intro e he
    obtain ⟨x, hx, rfl⟩ := List.mem_map.1 he
    unfold locationEntry
    intro hm
    rcases List.mem_append.1 hm with hm | hm
    · exact (hchrom x hx).1 hm
    · rcases List.mem_cons.1 hm with hm | hm
      · exact absurd hm (by decide)
      · exact (isDigit_ne_sep _ (decimal_isDigit _ _ hm)).1 rfl

theorem parseRange_text (intSize : Nat) (hw : 0 < intSize) (chrom : GoString) (s e : Nat)
    (hchrom : ':' ∉ chrom) (hs : 1 ≤ s) (he : e < 2 ^ (intSize - 1)) (hse : s ≤ e) :
    parseRange intSize (rangeText chrom s e)
      = .ok [NewLocation chrom ((s : Int) - 1) (e : Int)] := by
  have hcolon : ':' ∉ decimal s ++ '-' :: decimal e := by
    intro hm
    rcases List.mem_append.1 hm with hm | hm
    · exact (isDigit_ne_sep _ (decimal_isDigit _ _ hm)).2.1 rfl
    · rcases List.mem_cons.1 hm with hm | hm
      · exact absurd hm (by decide)
      · exact (isDigit_ne_sep _ (decimal_isDigit _ _ hm)).2.1 rfl
  have hdash1 : '-' ∉ decimal s := fun hm => (isDigit_ne_sep _ (decimal_isDigit _ _ hm)).2.2.1 rfl
  have hdash2 : '-' ∉ decimal e := fun hm => (isDigit_ne_sep _ (decimal_isDigit _ _ hm)).2.2.1 rfl
  have hq : Split (rangeText chrom s e) ':' = [chrom, decimal s ++ '-' :: decimal e] := by
    unfold rangeText
    rw [Split_append_sep _ _ _ hchrom, Split_of_not_mem _ _ hcolon]
  have hr : Split (decimal s ++ '-' :: decimal e) '-' = [decimal s, decimal e] := by
    rw [Split_append_sep _ _ _ hdash1, Split_of_not_mem _ _ hdash2]
  have hpos : (0 : Int) < 2 ^ (intSize - 1) := by positivity
  have he2 : ((e : Nat) : Int) < 2 ^ (intSize - 1) := by exact_mod_cast he
  have hsub : subInt intSize (s : Int) 1 = (s : Int) - 1 :=
    wrapInt_of_bounds intSize hw _ (by omega) (by omega)
  simp only [parseRange, hq, hr, Atoi_decimal intSize s hw (by omega),
    Atoi_decimal intSize e hw he, hsub]

theorem forall₂_left {α β : Type} {R : α → β → Prop} : ∀ {l1 : List α} {l2 : List β},
    List.Forall₂ R l1 l2 → ∀ a ∈ l1, ∃ b ∈ l2, R a b := by
  intro l1 l2 h
  induction h with
  | nil => intro a ha; simp at ha
  | cons hab _ ih =>
    intro a ha
    rcases List.mem_cons.1 ha with rfl | ha
    · exact ⟨_, by simp, hab⟩
    · obtain ⟨b, hb, hr⟩ := ih a ha
      exact ⟨b, by simp [hb], hr⟩

theorem forall₂_right {α β : Type} {R : α → β → Prop} : ∀ {l1 : List α} {l2 : List β},
    List.Forall₂ R l1 l2 → ∀ b ∈ l2, ∃ a ∈ l1, R a b := by
  intro l1 l2 h
  induction h with
  | nil => intro b hb; simp at hb
  | cons hab _ ih =>
    intro b hb
    rcases List.mem_cons.1 hb with rfl | hb
    · exact ⟨_, by simp, hab⟩
    · obtain ⟨a, ha, hr⟩ := ih b hb
      exact ⟨a, by simp [ha], hr⟩

theorem parseLocations_ok (intSize : Nat) (s : GoString) (locs : List Location)
    (h : parseLocations intSize s = .ok locs) :
    List.Forall₂ (entryParses intSize) (Split s ',') locs := by
  obtain ⟨news, hout, hall⟩ := locationsLoop_ok intSize _ _ _ h
  simp only [List.nil_append] at hout
  rw [hout]
  exact hall

theorem parseRange_invalid_colon (intSize : Nat) (s : GoString)
    (h : (Split s ':').length ≠ 2) :
    parseRange intSize s = .error (.GenomeError "Invalid locations".toList) := by
  unfold parseRange
  split
  · rename_i q0 q1 hq
    simp [hq] at h
  · rfl

theorem parseRange_invalid_dash (intSize : Nat) (s q0 q1 : GoString)
    (hq : Split s ':' = [q0, q1]) (h : (Split q1 '-').length ≠ 2) :
    parseRange intSize s = .error (.GenomeError "Invalid locations".toList) := by
  simp only [parseRange, hq]
  split
  · rename_i r0 r1 hr
    simp [hr] at h
  · rfl

theorem getGenotypes_range_error {Gt Sq : Type} (intSize : Nat) (db : Store Gt Sq) (c : Context)
    (id : Int) (genome : Genome) (err : GoError)
    (hid : Atoi intSize c.genome_id = .ok id) (hg : db.GetGenome id = .ok genome)
    (hl : c.locations = []) (hr : c.range ≠ [])
    (hp : parseRange intSize c.range = .error err) :
    getGenotypes intSize db c = ([.GetGenome id], { status := 400, body := .error err }) := by
  apply getGenotypes_parse_error intSize db c id genome err hid hg (Or.inr ⟨hl, hr⟩)
  unfold parseCoordinates
  rw [if_neg (by simp [hl]), hp]

/-! ## The claims -/

/-- Claim C1: a `locations` parameter `c_1:p_1,...,c_n:p_n` (n at least one, no `,`
or `:` in a chromosome, every position at least 1 and inside the `int` range,
written in decimal), on a request whose genome resolves and whose `range` is
empty, makes the handler call `QueryGenotypes` once, with the Locations
`(c_i, p_i - 1, p_i)` in input order. -/
theorem getGenotypes_locations_dispatch {Gt Sq : Type} (intSize : Nat) (db : Store Gt Sq)
    (c : Context) (id : Int) (genome : Genome) (pairs : List (GoString × Nat))
    (hw : 0 < intSize)
    (hid : Atoi intSize c.genome_id = .ok id) (hg : db.GetGenome id = .ok genome)
    (hr : c.range = []) (hne : pairs ≠ [])
    (hchrom : ∀ x ∈ pairs, ',' ∉ x.1 ∧ ':' ∉ x.1)
    (hpos : ∀ x ∈ pairs, 1 ≤ x.2 ∧ x.2 < 2 ^ (intSize - 1))
    (hl : c.locations = locationsText pairs) :
    dispatched (getGenotypes intSize db c).1
      = [pairs.map fun x => { Chrom := x.1, Start := (x.2 : Int) - 1, End := (x.2 : Int) }] := by
  have hl0 : c.locations ≠ [] := hl ▸ locationsText_ne_nil pairs hne
  have hp : parseCoordinates intSize c
      = .ok (pairs.map fun x => NewLocation x.1 ((x.2 : Int) - 1) (x.2 : Int)) := by
    unfold parseCoordinates
    rw [if_pos hl0, hl]
    exact parseLocations_text intSize hw pairs hne hchrom hpos
  exact getGenotypes_dispatched intSize db c id genome _ hid hg (Or.inl ⟨hl0, hr⟩) hp

/-- Witness for C1: the request `locations=1:1,1:2,1:3` of the handler's own comment. -/
theorem getGenotypes_locations_dispatch_witness :
    locationsText [("1".toList, 1), ("1".toList, 2), ("1".toList, 3)] = "1:1,1:2,1:3".toList ∧
    dispatched (getGenotypes 64 demoStore
        { genome_id := "1".toList, locations := "1:1,1:2,1:3".toList, range := [], fmt := [] }).1
      = [[{ Chrom := "1".toList, Start := 0, End := 1 },
          { Chrom := "1".toList, Start := 1, End := 2 },
          { Chrom := "1".toList, Start := 2, End := 3 }]] :=
  ⟨by decide,
   getGenotypes_locations_dispatch 64 demoStore
     { genome_id := "1".toList, locations := "1:1,1:2,1:3".toList, range := [], fmt := [] }
     1 { Id := 1, FilePath := "g.vcf".toList, SampleIndex := 0 }
     [("1".toList, 1), ("1".toList, 2), ("1".toList, 3)]
     (by decide) (by decide) rfl rfl (by decide) (by decide) (by decide) (by decide)⟩

/-- Claim C2: a `range` parameter `c:s-e` (no `:` in the chromosome, `1 ≤ s ≤ e`
inside the `int` range, written in decimal), on a request whose genome resolves
and whose `locations` is empty, makes the handler call `QueryGenotypes` once,
with the single Location `(c, s - 1, e)`. -/
theorem getGenotypes_range_dispatch {Gt Sq : Type} (intSize : Nat) (db : Store Gt Sq)
    (c : Context) (id : Int) (genome : Genome) (chrom : GoString) (s e : Nat)
    (hw : 0 < intSize)
    (hid : Atoi intSize c.genome_id = .ok id) (hg : db.GetGenome id = .ok genome)
    (hl : c.locations = []) (hchrom : ':' ∉ chrom)
    (hs : 1 ≤ s) (hse : s ≤ e) (he : e < 2 ^ (intSize - 1))
    (hr : c.range = rangeText chrom s e) :
    dispatched (getGenotypes intSize db c).1
      = [[{ Chrom := chrom, Start := (s : Int) - 1, End := (e : Int) }]] := by
  have hr0 : c.range ≠ [] := by
    rw [hr]
    simp [rangeText]
  have hp : parseCoordinates intSize c = .ok [NewLocation chrom ((s : Int) - 1) (e : Int)] := by
    unfold parseCoordinates
    rw [if_neg (by simp [hl]), hr]
    exact parseRange_text intSize hw chrom s e hchrom hs he hse
  exact getGenotypes_dispatched intSize db c id genome _ hid hg (Or.inr ⟨hl, hr0⟩) hp

/-- Witness for C2: the request `range=1:1-100` of the handler's own comment. -/
theorem getGenotypes_range_dispatch_witness :
    rangeText "1".toList 1 100 = "1:1-100".toList ∧
    dispatched (getGenotypes 64 demoStore
        { genome_id := "1".toList, locations := [], range := "1:1-100".toList, fmt := [] }).1
      = [[{ Chrom := "1".toList, Start := 0, End := 100 }]] :=
  ⟨by decide,
   getGenotypes_range_dispatch 64 demoStore
     { genome_id := "1".toList, locations := [], range := "1:1-100".toList, fmt := [] }
     1 { Id := 1, FilePath := "g.vcf".toList, SampleIndex := 0 } "1".toList 1 100
     (by decide) (by decide) rfl rfl (by decide) (by decide) (by decide) (by decide) (by decide)⟩

/-- Claim C3 as stated fails: with both parameters present but a genome id that is
not a number, the request ends at the genome-id parse (server.go line 86) with the
`Atoi` error, and the message about both parameters is never produced. -/
theorem getGenotypes_both_params_counterexample :
    (getGenotypes 64 demoStore
        { genome_id := "x".toList, locations := "1:1".toList, range := "1:1-100".toList,
          fmt := [] })
      = ([], { status := 400, body := .error (.NumError "x".toList .ErrSyntax) }) ∧
    (getGenotypes 64 demoStore
        { genome_id := "x".toList, locations := "1:1".toList, range := "1:1-100".toList,
          fmt := [] }).2
      ≠ { status := 400, body := .error (.GenomeError
          "Invalid query param. Both locations and range params found.".toList) } := by
  constructor <;> decide

/-- Claim C3, amended: when the genome id parses and the genome resolves, a request
with both `locations` and `range` non-empty fails with HTTP 400 and the message
about both parameters, whatever the two parameters and `fmt` contain; the genome
lookup is the only store call made, and it precedes the validation. -/
theorem getGenotypes_both_params {Gt Sq : Type} (intSize : Nat) (db : Store Gt Sq)
    (c : Context) (id : Int) (genome : Genome)
    (hid : Atoi intSize c.genome_id = .ok id) (hg : db.GetGenome id = .ok genome)
    (hl : c.locations ≠ []) (hr : c.range ≠ []) :
    getGenotypes intSize db c
      = ([.GetGenome id], { status := 400, body := .error (.GenomeError
          "Invalid query param. Both locations and range params found.".toList) }) := by
  simp [getGenotypes, hid, hg, hl, hr, JSON, StatusBadRequest]

/-- Witness for the amended C3: `locations=1:1&range=1:1-100` on genome 1. -/
theorem getGenotypes_both_params_witness :
    getGenotypes 64 demoStore
        { genome_id := "1".toList, locations := "1:1".toList, range := "1:1-100".toList,
          fmt := "seq".toList }
      = ([.GetGenome 1], { status := 400, body := .error (.GenomeError
          "Invalid query param. Both locations and range params found.".toList) }) :=
  getGenotypes_both_params 64 demoStore
    { genome_id := "1".toList, locations := "1:1".toList, range := "1:1-100".toList,
      fmt := "seq".toList }
    1 { Id := 1, FilePath := "g.vcf".toList, SampleIndex := 0 }
    (by decide) rfl (by decide) (by decide)

/-- Claim C4: when the genome resolves and both `locations` and `range` are empty,
the request fails with HTTP 400 and the message `No valid query params found.`,
and `QueryGenotypes` is not called, whatever `fmt` is. -/
theorem getGenotypes_no_params {Gt Sq : Type} (intSize : Nat) (db : Store Gt Sq)
    (c : Context) (id : Int) (genome : Genome)
    (hid : Atoi intSize c.genome_id = .ok id) (hg : db.GetGenome id = .ok genome)
    (hl : c.locations = []) (hr : c.range = []) :
    (getGenotypes intSize db c).2
      = { status := 400, body := .error (.GenomeError "No valid query params found.".toList) } ∧
    dispatched (getGenotypes intSize db c).1 = [] := by
  simp [getGenotypes, hid, hg, hl, hr, JSON, StatusBadRequest, dispatched]

/-- Witness for C4: genome 1, no `locations`, no `range`, `fmt=seq`. -/
theorem getGenotypes_no_params_witness :
    (getGenotypes 64 demoStore
        { genome_id := "1".toList, locations := [], range := [], fmt := "seq".toList }).2
      = { status := 400, body := .error (.GenomeError "No valid query params found.".toList) } ∧
    dispatched (getGenotypes 64 demoStore
        { genome_id := "1".toList, locations := [], range := [], fmt := "seq".toList }).1 = [] :=
  getGenotypes_no_params 64 demoStore
    { genome_id := "1".toList, locations := [], range := [], fmt := "seq".toList }
    1 { Id := 1, FilePath := "g.vcf".toList, SampleIndex := 0 } (by decide) rfl rfl rfl

/-- Claim C6: when the genome resolves, the parameters parse to `locs` and the
genotype lookup returns `genotypes`, `Genotypes2Sequence` is called (once, on
`genotypes` and `locs`) and its outcome is the response exactly when `range` is
non-empty and `fmt` is `seq`; otherwise it is not called and the response is 200
with the genotype list. With `locations` set, that is the outcome whatever `fmt`
is. -/
theorem getGenotypes_fmt_seq {Gt Sq : Type} (intSize : Nat) (db : Store Gt Sq)
    (c : Context) (id : Int) (genome : Genome) (locs : List Location) (genotypes : Gt)
    (hid : Atoi intSize c.genome_id = .ok id) (hg : db.GetGenome id = .ok genome)
    (hparse : (c.locations ≠ [] ∧ c.range = [] ∧ parseLocations intSize c.locations = .ok locs) ∨
      (c.locations = [] ∧ c.range ≠ [] ∧ parseRange intSize c.range = .ok locs))
    (hq : db.QueryGenotypes genome.FilePath genome.SampleIndex locs = .ok genotypes) :
    (reconstructions (getGenotypes intSize db c).1 ≠ [] ↔
      (c.range ≠ [] ∧ c.fmt = "seq".toList)) ∧
    ((c.range ≠ [] ∧ c.fmt = "seq".toList) →
      reconstructions (getGenotypes intSize db c).1 = [(genotypes, locs)] ∧
      (getGenotypes intSize db c).2 =
        match db.Genotypes2Sequence genotypes locs with
        | .error err => { status := 400, body := .error err }
        | .ok seq => { status := 200, body := .sequence seq }) ∧
    (¬ (c.range ≠ [] ∧ c.fmt = "seq".toList) →
      reconstructions (getGenotypes intSize db c).1 = [] ∧
      (getGenotypes intSize db c).2 = { status := 200, body := .genotypes genotypes }) ∧
    (c.locations ≠ [] →
      reconstructions (getGenotypes intSize db c).1 = [] ∧
      (getGenotypes intSize db c).2 = { status := 200, body := .genotypes genotypes }) := by
  have hone : oneParam c := by
    rcases hparse with ⟨hl, hr, -⟩ | ⟨hl, hr, -⟩
    · exact Or.inl ⟨hl, hr⟩
    · exact Or.inr ⟨hl, hr⟩
  have hp : parseCoordinates intSize c = .ok locs := by
    unfold parseCoordinates
    rcases hparse with ⟨hl, hr, h⟩ | ⟨hl, hr, h⟩
    · rw [if_pos hl, h]
    · rw [if_neg (by simp [hl]), h]
  have hrun := getGenotypes_parse_ok intSize db c id genome locs hid hg hone hp
  rw [hq] at hrun
  simp only at hrun
  have hyes : (c.range ≠ [] ∧ c.fmt = "seq".toList) →
      reconstructions (getGenotypes intSize db c).1 = [(genotypes, locs)] ∧
      (getGenotypes intSize db c).2 =
        match db.Genotypes2Sequence genotypes locs with
        | .error err => { status := 400, body := .error err }
        | .ok seq => { status := 200, body := .sequence seq } := by
    intro hsel
    rw [hrun, if_pos hsel]
    cases db.Genotypes2Sequence genotypes locs <;> exact ⟨rfl, rfl⟩
  have hno : ¬ (c.range ≠ [] ∧ c.fmt = "seq".toList) →
      reconstructions (getGenotypes intSize db c).1 = [] ∧
      (getGenotypes intSize db c).2 = { status := 200, body := .genotypes genotypes } := by
    intro hsel
    rw [hrun, if_neg hsel]
    exact ⟨rfl, rfl⟩
  refine ⟨⟨?_, ?_⟩, hyes, hno, ?_⟩
  · intro hrec
    by_contra hsel
    exact hrec (hno hsel).1
  · intro hsel
    rw [(hyes hsel).1]
    simp
  · intro hl
    apply hno
    rintro ⟨hr, -⟩
    rcases hparse with ⟨-, hr2, -⟩ | ⟨hl2, -, -⟩
    · exact hr hr2
    · exact hl hl2

/-- Witness for C6: `range=1:1-100&fmt=seq` on genome 1 is answered with the
reconstructed sequence. -/
theorem getGenotypes_fmt_seq_witness :
    reconstructions (getGenotypes 64 demoStore
        { genome_id := "1".toList, locations := [], range := "1:1-100".toList,
          fmt := "seq".toList }).1
      = [([{ Chrom := "1".toList, Start := 0, End := 100 }],
          [{ Chrom := "1".toList, Start := 0, End := 100 }])] ∧
    (getGenotypes 64 demoStore
        { genome_id := "1".toList, locations := [], range := "1:1-100".toList,
          fmt := "seq".toList }).2 = { status := 200, body := .sequence 1 } :=
  (getGenotypes_fmt_seq 64 demoStore
    { genome_id := "1".toList, locations := [], range := "1:1-100".toList, fmt := "seq".toList }
    1 { Id := 1, FilePath := "g.vcf".toList, SampleIndex := 0 }
    [{ Chrom := "1".toList, Start := 0, End := 100 }]
    [{ Chrom := "1".toList, Start := 0, End := 100 }]
    (by decide) rfl (Or.inr ⟨rfl, by decide, by decide⟩) rfl).2.1 ⟨by decide, by decide⟩

/-- Claim C5 as stated fails: the range `1:5-3` is accepted and dispatched as the
Location `(1, 4, 3)`, whose start is not below its end; the entry `:5` of a
`locations` parameter is accepted and dispatched with an empty chromosome. -/
theorem getGenotypes_location_invariant_counterexample :
    dispatched (getGenotypes 64 demoStore
        { genome_id := "1".toList, locations := [], range := "1:5-3".toList, fmt := [] }).1
      = [[{ Chrom := "1".toList, Start := 4, End := 3 }]] ∧
    dispatched (getGenotypes 64 demoStore
        { genome_id := "1".toList, locations := ":5".toList, range := [], fmt := [] }).1
      = [[{ Chrom := [], Start := 4, End := 5 }]] ∧
    ¬ (∀ locs ∈ dispatched (getGenotypes 64 demoStore
          { genome_id := "1".toList, locations := [], range := "1:5-3".toList, fmt := [] }).1,
        ∀ loc ∈ locs, loc.Start < loc.End ∧ loc.Chrom ≠ []) := by
  refine ⟨by decide, by decide, by decide⟩

/-- Claim C5, amended: the parser enforces no invariant of its own. A Location it
passes to `QueryGenotypes` has start below end and a non-empty chromosome
provided, for a `locations` query, that every entry has a non-empty chromosome
field and a position other than the least `int`, and, for a `range` query, that
the chromosome field is non-empty and the start written is not above the end
written. -/
theorem getGenotypes_location_invariant {Gt Sq : Type} (intSize : Nat) (db : Store Gt Sq)
    (c : Context) (locs : List Location) (hw : 0 < intSize)
    (hd : locs ∈ dispatched (getGenotypes intSize db c).1) :
    (c.locations ≠ [] →
      (∀ query ∈ Split c.locations ',', ∀ q0 q1 pos, Split query ':' = [q0, q1] →
        Atoi intSize q1 = .ok pos → q0 ≠ [] ∧ pos ≠ -(2 ^ (intSize - 1) : Int)) →
      ∀ loc ∈ locs, loc.Start < loc.End ∧ loc.Chrom ≠ []) ∧
    (c.locations = [] →
      (∀ q0 q1 r0 r1 start stop, Split c.range ':' = [q0, q1] → Split q1 '-' = [r0, r1] →
        Atoi intSize r0 = .ok start → Atoi intSize r1 = .ok stop → q0 ≠ [] ∧ start ≤ stop) →
      ∀ loc ∈ locs, loc.Start < loc.End ∧ loc.Chrom ≠ []) := by
  obtain ⟨id, genome, -, -, hone, hp, -⟩ := dispatched_inv intSize db c locs hd
  unfold parseCoordinates at hp
  constructor
  · intro hl hgood loc hloc
    rw [if_pos hl] at hp
    obtain ⟨query, hquery, q0, q1, pos, hs, ha, rfl⟩ :=
      forall₂_right (parseLocations_ok intSize _ _ hp) loc hloc
    obtain ⟨hq0, hmin⟩ := hgood query hquery q0 q1 pos hs ha
    obtain ⟨hlo, hhi, -⟩ := Atoi_bounds intSize q1 pos ha
    have hsub : subInt intSize pos 1 = pos - 1 :=
      wrapInt_of_bounds intSize hw _ (by omega) (by omega)
    simp only [NewLocation, hsub]
    exact ⟨by omega, hq0⟩
  · intro hl hgood loc hloc
    rw [if_neg (by simp [hl])] at hp
    unfold parseRange at hp
    split at hp
    · rename_i q0 q1 hq
      split at hp
      · rename_i r0 r1 hr
        split at hp
        · cases hp
        · rename_i start hstart
          split at hp
          · cases hp
          · rename_i stop hstop
            simp only [Except.ok.injEq] at hp
            subst hp
            simp only [List.mem_singleton] at hloc
            subst hloc
            obtain ⟨hq0, hle⟩ := hgood q0 q1 r0 r1 start stop hq hr hstart hstop
            obtain ⟨-, hhi, hnn⟩ := Atoi_bounds intSize r0 start hstart
            have hdash : '-' ∉ r0 := Split_not_mem q1 '-' r0 (by simp [hr])
            have h0 := hnn hdash
            have hpos : (0 : Int) < 2 ^ (intSize - 1) := by positivity
            have hsub : subInt intSize start 1 = start - 1 :=
              wrapInt_of_bounds intSize hw _ (by omega) (by omega)
            simp only [NewLocation, hsub]
            exact ⟨by omega, hq0⟩
      · cases hp
    · cases hp

/-- Witness for the amended C5: the range `1:1-100` on genome 1. -/
theorem getGenotypes_location_invariant_witness :
    [({ Chrom := "1".toList, Start := 0, End := 100 } : Location)]
      ∈ dispatched (getGenotypes 64 demoStore
        { genome_id := "1".toList, locations := [], range := "1:1-100".toList, fmt := [] }).1 ∧
    ∀ loc ∈ [({ Chrom := "1".toList, Start := 0, End := 100 } : Location)],
      loc.Start < loc.End ∧ loc.Chrom ≠ [] :=
  ⟨by decide, (getGenotypes_location_invariant 64 demoStore
    { genome_id := "1".toList, locations := [], range := "1:1-100".toList, fmt := [] }
    [{ Chrom := "1".toList, Start := 0, End := 100 }] (by decide) (by decide)).2 rfl
    (by
      intro q0 q1 r0 r1 start stop hq hr hs he
      have h1 : Split "1:1-100".toList ':' = ["1".toList, "1-100".toList] := by decide
      have hq : Split "1:1-100".toList ':' = [q0, q1] := hq
      rw [h1] at hq
      simp only [List.cons.injEq, and_true] at hq
      obtain ⟨rfl, rfl⟩ := hq
      have h2 : Split "1-100".toList '-' = ["1".toList, "100".toList] := by decide
      rw [h2] at hr
      simp only [List.cons.injEq, and_true] at hr
      obtain ⟨rfl, rfl⟩ := hr
      have h3 : Atoi 64 "1".toList = .ok 1 := by decide
      have h4 : Atoi 64 "100".toList = .ok 100 := by decide
      rw [h3] at hs
      rw [h4] at he
      cases hs
      cases he
      exact ⟨by decide, by decide⟩)⟩

/-- Claim C7 as stated fails: in `locations=1:x,2` the entry `2` has a single
field, yet the loop stops earlier, at the position `x` of the first entry, and the
request fails with the `Atoi` error instead of `Invalid locations`. -/
theorem getGenotypes_invalid_locations_counterexample :
    (∃ entry ∈ Split "1:x,2".toList ',', (Split entry ':').length ≠ 2) ∧
    getGenotypes 64 demoStore
        { genome_id := "1".toList, locations := "1:x,2".toList, range := [], fmt := [] }
      = ([.GetGenome 1], { status := 400, body := .error (.NumError "x".toList .ErrSyntax) }) ∧
    (getGenotypes 64 demoStore
        { genome_id := "1".toList, locations := "1:x,2".toList, range := [], fmt := [] }).2
      ≠ { status := 400, body := .error (.GenomeError "Invalid locations".toList) } := by
  refine ⟨⟨"2".toList, by decide, by decide⟩, by decide, by decide⟩

/-- Claim C7, amended: when the genome resolves, `range` is empty and `locations`
is non-empty, the entries are handled in order and the first entry that fails
decides the error, returned with HTTP 400: `Invalid locations` if that entry
does not split on `:` into exactly two fields, the `Atoi` error if it does and
its position is not an integer. An entry with the wrong number of fields thus
gives `Invalid locations` when every entry before it parses. -/
theorem getGenotypes_invalid_locations {Gt Sq : Type} (intSize : Nat) (db : Store Gt Sq)
    (c : Context) (id : Int) (genome : Genome) (pre : List GoString) (entry : GoString)
    (post : List GoString)
    (hid : Atoi intSize c.genome_id = .ok id) (hg : db.GetGenome id = .ok genome)
    (hr : c.range = []) (hl : c.locations ≠ [])
    (hsplit : Split c.locations ',' = pre ++ entry :: post)
    (hpre : ∀ e ∈ pre, ∃ q0 q1 pos, Split e ':' = [q0, q1] ∧ Atoi intSize q1 = .ok pos) :
    ((Split entry ':').length ≠ 2 →
      getGenotypes intSize db c
        = ([.GetGenome id],
            { status := 400, body := .error (.GenomeError "Invalid locations".toList) })) ∧
    (∀ q0 q1 err, Split entry ':' = [q0, q1] → Atoi intSize q1 = .error err →
      getGenotypes intSize db c = ([.GetGenome id], { status := 400, body := .error err })) := by
  have hloop := locationsLoop_first_failure intSize pre entry post [] hpre
  have hrun : ∀ err, locationsLoop intSize (pre ++ entry :: post) [] = .error err →
      getGenotypes intSize db c = ([.GetGenome id], { status := 400, body := .error err }) := by
    intro err h
    apply getGenotypes_parse_error intSize db c id genome _ hid hg (Or.inl ⟨hl, hr⟩)
    unfold parseCoordinates parseLocations
    rw [if_pos hl, hsplit, h]
  exact ⟨fun hbad => hrun _ (hloop.1 hbad),
    fun q0 q1 err hq ha => hrun _ (hloop.2 q0 q1 err hq ha)⟩

/-- Witness for the amended C7: `locations=1:1,2,3:x` on genome 1. -/
theorem getGenotypes_invalid_locations_witness :
    Split "1:1,2,3:x".toList ',' = ["1:1".toList] ++ "2".toList :: ["3:x".toList] ∧
    getGenotypes 64 demoStore
        { genome_id := "1".toList, locations := "1:1,2,3:x".toList, range := [], fmt := [] }
      = ([.GetGenome 1],
          { status := 400, body := .error (.GenomeError "Invalid locations".toList) }) :=
  ⟨by decide,
   (getGenotypes_invalid_locations 64 demoStore
     { genome_id := "1".toList, locations := "1:1,2,3:x".toList, range := [], fmt := [] }
     1 { Id := 1, FilePath := "g.vcf".toList, SampleIndex := 0 }
     ["1:1".toList] "2".toList ["3:x".toList]
     (by decide) rfl rfl (by decide) (by decide)
     (by
       intro e he
       have he : e = "1:1".toList := by simpa using he
       subst he
       exact ⟨"1".toList, "1".toList, 1, by decide, by decide⟩)).1
     (by decide)⟩

/-- Claim C8: when the genome resolves, `locations` is empty and `range` is
non-empty, parsing `range` ends in exactly one of these ways: `Invalid locations`
when it does not split on `:` into two fields, or its second field does not split
on `-` into two fields; else the `Atoi` error of the start field; else the `Atoi`
error of the end field; else one call of `QueryGenotypes` with the single
Location `(chromosome, start - 1, end)`. A second field with two or more `-`,
as in `1:-5-10`, is therefore rejected with `Invalid locations`. -/
theorem getGenotypes_range_outcome {Gt Sq : Type} (intSize : Nat) (db : Store Gt Sq)
    (c : Context) (id : Int) (genome : Genome) (hw : 0 < intSize)
    (hid : Atoi intSize c.genome_id = .ok id) (hg : db.GetGenome id = .ok genome)
    (hl : c.locations = []) (hr : c.range ≠ []) :
    ((Split c.range ':').length ≠ 2 →
      getGenotypes intSize db c = ([.GetGenome id],
        { status := 400, body := .error (.GenomeError "Invalid locations".toList) })) ∧
    (∀ q0 q1, Split c.range ':' = [q0, q1] →
      ((Split q1 '-').length ≠ 2 →
        getGenotypes intSize db c = ([.GetGenome id],
          { status := 400, body := .error (.GenomeError "Invalid locations".toList) })) ∧
      (2 ≤ q1.count '-' →
        getGenotypes intSize db c = ([.GetGenome id],
          { status := 400, body := .error (.GenomeError "Invalid locations".toList) })) ∧
      (∀ r0 r1, Split q1 '-' = [r0, r1] →
        (∀ err, Atoi intSize r0 = .error err →
          getGenotypes intSize db c = ([.GetGenome id], { status := 400, body := .error err })) ∧
        (∀ start err, Atoi intSize r0 = .ok start → Atoi intSize r1 = .error err →
          getGenotypes intSize db c = ([.GetGenome id], { status := 400, body := .error err })) ∧
        (∀ start stop, Atoi intSize r0 = .ok start → Atoi intSize r1 = .ok stop →
          dispatched (getGenotypes intSize db c).1
            = [[{ Chrom := q0, Start := start - 1, End := stop }]]))) := by
  have herr := getGenotypes_range_error intSize db c id genome
  refine ⟨fun h => herr _ hid hg hl hr (parseRange_invalid_colon intSize _ h), ?_⟩
  intro q0 q1 hq
  have hdash : (Split q1 '-').length ≠ 2 →
      getGenotypes intSize db c = ([.GetGenome id],
        { status := 400, body := .error (.GenomeError "Invalid locations".toList) }) :=
    fun h => herr _ hid hg hl hr (parseRange_invalid_dash intSize _ q0 q1 hq h)
  refine ⟨hdash, ?_, ?_⟩
  · intro hcount
    apply hdash
    rw [Split_length]
    omega
  · intro r0 r1 hsp
    refine ⟨?_, ?_, ?_⟩
    · intro err ha
      apply herr _ hid hg hl hr
      simp only [parseRange, hq, hsp, ha]
    · intro start err ha hb
      apply herr _ hid hg hl hr
      simp only [parseRange, hq, hsp, ha, hb]
    · intro start stop ha hb
      obtain ⟨-, hhi, hnn⟩ := Atoi_bounds intSize r0 start ha
      have hnd : '-' ∉ r0 := Split_not_mem q1 '-' r0 (by simp [hsp])
      have h0 := hnn hnd
      have hpos : (0 : Int) < 2 ^ (intSize - 1) := by positivity
      have hsub : subInt intSize start 1 = start - 1 :=
        wrapInt_of_bounds intSize hw _ (by omega) (by omega)
      apply getGenotypes_dispatched intSize db c id genome _ hid hg (Or.inr ⟨hl, hr⟩)
      unfold parseCoordinates
      rw [if_neg (by simp [hl])]
      simp only [parseRange, hq, hsp, ha, hb, hsub, NewLocation]

/-- Witness for C8: `range=1:-5-10` on genome 1 is rejected with `Invalid locations`. -/
theorem getGenotypes_range_outcome_witness :
    Split "1:-5-10".toList ':' = ["1".toList, "-5-10".toList] ∧
    getGenotypes 64 demoStore
        { genome_id := "1".toList, locations := [], range := "1:-5-10".toList, fmt := [] }
      = ([.GetGenome 1],
          { status := 400, body := .error (.GenomeError "Invalid locations".toList) }) :=
  ⟨by decide,
   ((getGenotypes_range_outcome 64 demoStore
     { genome_id := "1".toList, locations := [], range := "1:-5-10".toList, fmt := [] }
     1 { Id := 1, FilePath := "g.vcf".toList, SampleIndex := 0 }
     (by decide) (by decide) rfl rfl (by decide)).2
       "1".toList "-5-10".toList (by decide)).2.1 (by decide)⟩

/-- Claim C9: a Location sequence handed to `QueryGenotypes` is never empty; for a
`locations` query its length is the number of `,` in the parameter plus one, for
a `range` query it is 1; and `QueryGenotypes` is called at most once. -/
theorem getGenotypes_dispatch_length {Gt Sq : Type} (intSize : Nat) (db : Store Gt Sq)
    (c : Context) (locs : List Location)
    (hd : locs ∈ dispatched (getGenotypes intSize db c).1) :
    1 ≤ locs.length ∧
    (c.locations ≠ [] → locs.length = c.locations.count ',' + 1) ∧
    (c.locations = [] → c.range ≠ [] ∧ locs.length = 1) ∧
    dispatched (getGenotypes intSize db c).1 = [locs] := by
  obtain ⟨id, genome, -, -, hone, hp, hall⟩ := dispatched_inv intSize db c locs hd
  unfold parseCoordinates at hp
  have hloc : c.locations ≠ [] → locs.length = c.locations.count ',' + 1 := by
    intro hl
    rw [if_pos hl] at hp
    rw [← (parseLocations_ok intSize _ _ hp).length_eq, Split_length]
  have hrange : c.locations = [] → c.range ≠ [] ∧ locs.length = 1 := by
    intro hl
    have hr : c.range ≠ [] := by
      rcases hone with ⟨h, -⟩ | ⟨-, h⟩
      · exact absurd hl h
      · exact h
    refine ⟨hr, ?_⟩
    rw [if_neg (by simp [hl])] at hp
    unfold parseRange at hp
    split at hp
    · split at hp
      · split at hp
        · cases hp
        · split at hp
          · cases hp
          · simp only [Except.ok.injEq] at hp
            rw [← hp]
            rfl
      · cases hp
    · cases hp
  refine ⟨?_, hloc, hrange, hall⟩
  by_cases hl : c.locations = []
  · rw [(hrange hl).2]
  · rw [hloc hl]
    omega

/-- Witness for C9: `locations=1:1,1:2,1:3` on genome 1 dispatches three Locations. -/
theorem getGenotypes_dispatch_length_witness :
    [({ Chrom := "1".toList, Start := 0, End := 1 } : Location),
      { Chrom := "1".toList, Start := 1, End := 2 },
      { Chrom := "1".toList, Start := 2, End := 3 }]
      ∈ dispatched (getGenotypes 64 demoStore
        { genome_id := "1".toList, locations := "1:1,1:2,1:3".toList, range := [], fmt := [] }).1 ∧
    (3 : Nat) = "1:1,1:2,1:3".toList.count ',' + 1 :=
  ⟨by decide,
   (getGenotypes_dispatch_length 64 demoStore
     { genome_id := "1".toList, locations := "1:1,1:2,1:3".toList, range := [], fmt := [] }
     [{ Chrom := "1".toList, Start := 0, End := 1 },
      { Chrom := "1".toList, Start := 1, End := 2 },
      { Chrom := "1".toList, Start := 2, End := 3 }] (by decide)).2.1 (by decide)⟩

/-- Claim C10: the handler runs genome-id parse, genome lookup, parameter
validation, coordinate parsing, genotype lookup and, when selected, sequence
reconstruction in that order. The first step that fails ends the request with
HTTP 400 and that step's error, with no store call after it; the status is 200
or 400, and 200 only when every step run succeeded. A `locations` list with an
entry that does not parse is answered with an error and no genotype lookup. -/
theorem getGenotypes_steps {Gt Sq : Type} (intSize : Nat) (db : Store Gt Sq) (c : Context) :
    (∀ err, Atoi intSize c.genome_id = .error err →
      getGenotypes intSize db c = ([], { status := 400, body := .error err })) ∧
    (∀ id, Atoi intSize c.genome_id = .ok id →
      (∀ err, db.GetGenome id = .error err →
        getGenotypes intSize db c = ([.GetGenome id], { status := 400, body := .error err })) ∧
      (∀ genome, db.GetGenome id = .ok genome →
        (c.locations ≠ [] ∧ c.range ≠ [] →
          getGenotypes intSize db c = ([.GetGenome id],
            { status := 400,
              body := .error (.GenomeError
                "Invalid query param. Both locations and range params found.".toList) })) ∧
        (c.locations = [] ∧ c.range = [] →
          getGenotypes intSize db c = ([.GetGenome id],
            { status := 400,
              body := .error (.GenomeError "No valid query params found.".toList) })) ∧
        (oneParam c →
          (∀ err, parseCoordinates intSize c = .error err →
            getGenotypes intSize db c
              = ([.GetGenome id], { status := 400, body := .error err })) ∧
          (∀ locs, parseCoordinates intSize c = .ok locs →
            (∀ err, db.QueryGenotypes genome.FilePath genome.SampleIndex locs = .error err →
              getGenotypes intSize db c
                = ([.GetGenome id, .QueryGenotypes genome.FilePath genome.SampleIndex locs],
                    { status := 400, body := .error err })) ∧
            (∀ genotypes, db.QueryGenotypes genome.FilePath genome.SampleIndex locs = .ok genotypes →
              (¬ (c.range ≠ [] ∧ c.fmt = "seq".toList) →
                getGenotypes intSize db c
                  = ([.GetGenome id, .QueryGenotypes genome.FilePath genome.SampleIndex locs],
                      { status := 200, body := .genotypes genotypes })) ∧
              ((c.range ≠ [] ∧ c.fmt = "seq".toList) →
                (∀ err, db.Genotypes2Sequence genotypes locs = .error err →
                  getGenotypes intSize db c
                    = ([.GetGenome id, .QueryGenotypes genome.FilePath genome.SampleIndex locs,
                        .Genotypes2Sequence genotypes locs],
                        { status := 400, body := .error err })) ∧
                (∀ seq, db.Genotypes2Sequence genotypes locs = .ok seq →
                  getGenotypes intSize db c
                    = ([.GetGenome id, .QueryGenotypes genome.FilePath genome.SampleIndex locs,
                        .Genotypes2Sequence genotypes locs],
                        { status := 200, body := .sequence seq })))))))) ∧
    ((getGenotypes intSize db c).2.status = 200 ∨ (getGenotypes intSize db c).2.status = 400) ∧
    ((getGenotypes intSize db c).2.status = 200 →
      ∃ id genome locs genotypes, Atoi intSize c.genome_id = .ok id ∧
        db.GetGenome id = .ok genome ∧ oneParam c ∧ parseCoordinates intSize c = .ok locs ∧
        db.QueryGenotypes genome.FilePath genome.SampleIndex locs = .ok genotypes ∧
        ((c.range ≠ [] ∧ c.fmt = "seq".toList) →
          ∃ seq, db.Genotypes2Sequence genotypes locs = .ok seq)) ∧
    (c.locations ≠ [] → c.range = [] →
      (∃ entry ∈ Split c.locations ',', ∀ q0 q1 pos,
        ¬ (Split entry ':' = [q0, q1] ∧ Atoi intSize q1 = .ok pos)) →
      dispatched (getGenotypes intSize db c).1 = [] ∧
      ∃ err, (getGenotypes intSize db c).2 = { status := 400, body := .error err }) := by
  have h1 : ∀ err, Atoi intSize c.genome_id = .error err →
      getGenotypes intSize db c = ([], { status := 400, body := .error err }) := by
    intro err hid
    simp [getGenotypes, hid, JSON, StatusBadRequest]
  have h2 : ∀ id err, Atoi intSize c.genome_id = .ok id → db.GetGenome id = .error err →
      getGenotypes intSize db c = ([.GetGenome id], { status := 400, body := .error err }) := by
    intro id err hid hg
    simp [getGenotypes, hid, hg, JSON, StatusBadRequest]
  have h3 : ∀ id genome, Atoi intSize c.genome_id = .ok id → db.GetGenome id = .ok genome →
      c.locations ≠ [] ∧ c.range ≠ [] →
      getGenotypes intSize db c = ([.GetGenome id],
        { status := 400,
          body := .error (.GenomeError
            "Invalid query param. Both locations and range params found.".toList) }) := by
    intro id genome hid hg hb
    simp [getGenotypes, hid, hg, hb.1, hb.2, JSON, StatusBadRequest]
  have h4 : ∀ id genome, Atoi intSize c.genome_id = .ok id → db.GetGenome id = .ok genome →
      c.locations = [] ∧ c.range = [] →
      getGenotypes intSize db c = ([.GetGenome id],
        { status := 400,
          body := .error (.GenomeError "No valid query params found.".toList) }) := by
    intro id genome hid hg hb
    simp [getGenotypes, hid, hg, hb.1, hb.2, JSON, StatusBadRequest]
  have hcases : ¬ oneParam c →
      (c.locations ≠ [] ∧ c.range ≠ []) ∨ (c.locations = [] ∧ c.range = []) := by
    intro hone
    unfold oneParam at hone
    by_cases hl : c.locations = [] <;> by_cases hr : c.range = [] <;> simp_all
  refine ⟨h1, ?_, ?_, ?_, ?_⟩
  · intro id hid
    refine ⟨fun err hg => h2 id err hid hg, ?_⟩
    intro genome hg
    refine ⟨h3 id genome hid hg, h4 id genome hid hg, ?_⟩
    intro hone
    refine ⟨fun err hp => getGenotypes_parse_error intSize db c id genome err hid hg hone hp, ?_⟩
    intro locs hp
    have hrun := getGenotypes_parse_ok intSize db c id genome locs hid hg hone hp
    refine ⟨?_, ?_⟩
    · intro err hq
      rw [hrun, hq]
    · intro genotypes hq
      rw [hq] at hrun
      simp only at hrun
      refine ⟨fun hsel => by rw [hrun, if_neg hsel], ?_⟩
      intro hsel
      rw [if_pos hsel] at hrun
      exact ⟨fun err hs => by rw [hrun, hs], fun seq hs => by rw [hrun, hs]⟩
  · cases hid : Atoi intSize c.genome_id with
    | error err => right; rw [h1 err hid]
    | ok id =>
      cases hg : db.GetGenome id with
      | error err => right; rw [h2 id err hid hg]
      | ok genome =>
        by_cases hone : oneParam c
        · cases hp : parseCoordinates intSize c with
          | error err =>
            right; rw [getGenotypes_parse_error intSize db c id genome err hid hg hone hp]
          | ok locs =>
            rw [getGenotypes_parse_ok intSize db c id genome locs hid hg hone hp]
            split
            · right; rfl
            · split
              · split
                · right; rfl
                · left; rfl
              · left; rfl
        · rcases hcases hone with hb | hb
          · right; rw [h3 id genome hid hg hb]
          · right; rw [h4 id genome hid hg hb]
  · intro hok
    cases hid : Atoi intSize c.genome_id with
    | error err => rw [h1 err hid] at hok; cases hok
    | ok id =>
      cases hg : db.GetGenome id with
      | error err => rw [h2 id err hid hg] at hok; cases hok
      | ok genome =>
        by_cases hone : oneParam c
        · cases hp : parseCoordinates intSize c with
          | error err =>
            rw [getGenotypes_parse_error intSize db c id genome err hid hg hone hp] at hok
            cases hok
          | ok locs =>
            rw [getGenotypes_parse_ok intSize db c id genome locs hid hg hone hp] at hok
            cases hq : db.QueryGenotypes genome.FilePath genome.SampleIndex locs with
            | error err => rw [hq] at hok; cases hok
            | ok genotypes =>
              refine ⟨id, genome, locs, genotypes, rfl, hg, hone, rfl, hq, ?_⟩
              intro hsel
              rw [hq] at hok
              simp only at hok
              rw [if_pos hsel] at hok
              cases hs : db.Genotypes2Sequence genotypes locs with
              | error err => rw [hs] at hok; cases hok
              | ok seq => exact ⟨seq, rfl⟩
        · rcases hcases hone with hb | hb
          · rw [h3 id genome hid hg hb] at hok; cases hok
          · rw [h4 id genome hid hg hb] at hok; cases hok
  · intro hl hr ⟨entry, hentry, hbad⟩
    have hperr : ∃ err, parseCoordinates intSize c = .error err := by
      cases hp : parseCoordinates intSize c with
      | error err => exact ⟨err, rfl⟩
      | ok locs =>
        exfalso
        unfold parseCoordinates at hp
        rw [if_pos hl] at hp
        obtain ⟨loc, -, q0, q1, pos, hs, ha, -⟩ :=
          forall₂_left (parseLocations_ok intSize _ _ hp) entry hentry
        exact hbad q0 q1 pos ⟨hs, ha⟩
    obtain ⟨perr, hperr⟩ := hperr
    cases hid : Atoi intSize c.genome_id with
    | error err => rw [h1 err hid]; exact ⟨rfl, err, rfl⟩
    | ok id =>
      cases hg : db.GetGenome id with
      | error err => rw [h2 id err hid hg]; exact ⟨rfl, err, rfl⟩
      | ok genome =>
        rw [getGenotypes_parse_error intSize db c id genome perr hid hg (Or.inl ⟨hl, hr⟩) hperr]
        exact ⟨rfl, perr, rfl⟩

/-- An instance of C10: in `locations=1:1,1:x,1:3` the second entry has no integer
position; the request ends with the `Atoi` error after the genome lookup alone. -/
theorem getGenotypes_steps_witness :
    getGenotypes 64 demoStore
        { genome_id := "1".toList, locations := "1:1,1:x,1:3".toList, range := [], fmt := [] }
      = ([.GetGenome 1], { status := 400, body := .error (.NumError "x".toList .ErrSyntax) }) :=
  ((((getGenotypes_steps 64 demoStore
      { genome_id := "1".toList, locations := "1:1,1:x,1:3".toList, range := [], fmt := [] }).2.1
      1 (by decide)).2 { Id := 1, FilePath := "g.vcf".toList, SampleIndex := 0 } rfl).2.2
      (Or.inl ⟨by decide, rfl⟩)).1 _ (by decide)

end Awtk
